import Mathlib

/-!
Shallow embedding of the snyke repository (src/snyke/engine.py and
src/snyke/multiplexer.py) and proofs about its specification claims.

Python `int` is modelled by `Int`; Python floor division `//` by `Int.fdiv`;
Python's `random.randint` calls are modelled by an oracle `rnd : Nat → Nat`
giving the result of the k-th call.  Operations that can raise a Python
exception are modelled with `Option` (`none` = the call raises).
-/

namespace Snyke

/-- `Coord` from engine.py: integer column and row, value equality. -/
structure Coord where
  col : Int
  row : Int
deriving DecidableEq, Repr, Inhabited

/-- `Dimension` from engine.py: grid width and height. -/
structure Dimension where
  width : Int
  height : Int
deriving DecidableEq, Repr, Inhabited

/-- `State` from engine.py: collided snake indices and the game-over flag. -/
structure State where
  collisions : List Nat
  is_game_over : Bool
deriving DecidableEq, Repr, Inhabited

/-- `Direction` enum from engine.py. -/
inductive Direction where
  | UP
  | DOWN
  | RIGHT
  | LEFT
deriving DecidableEq, Repr, Inhabited

/-- `Food` from engine.py: a wrapper around one coordinate. -/
structure Food where
  coord : Coord
deriving DecidableEq, Repr, Inhabited

/-- `Snake` from engine.py: body cells (head first), committed direction
(`_direction`), pending direction (`_next_direction`) and score (`_points`). -/
structure Snake where
  cells : List Coord
  direction : Direction
  next_direction : Direction
  points : Int
deriving DecidableEq, Repr, Inhabited

/-- `Snake.__init__` / `Snake._create`: `length` cells starting at `head` and
extending opposite to `direction` (Python `range(length)` is empty for a
non-positive argument, hence `Int.toNat`). -/
def snakeCreate (head : Coord) (length : Int) (direction : Direction) : Snake :=
  let offs : Int × Int :=
    match direction with
    | .UP => (0, 1)
    | .DOWN => (0, -1)
    | .LEFT => (-1, 0)
    | .RIGHT => (1, 0)
  { cells := (List.range length.toNat).map
      (fun i => ⟨head.col + (i : Int) * offs.1, head.row + (i : Int) * offs.2⟩),
    direction := direction,
    next_direction := direction,
    points := 0 }

/-- `Snake.head`: `self._cells[0]`.  The source only evaluates it on
non-empty bodies; `headI` supplies a default on `[]`. -/
def Snake.head (s : Snake) : Coord := s.cells.headI

/-- `Snake.grow(n)`: append `n` copies of the current tail (`_cells[-1]`,
captured once before the loop) and add `n` to the score. -/
def Snake.grow (s : Snake) (n : Int) : Snake :=
  let tail := s.cells.getLastD default
  { s with
    cells := s.cells ++ List.replicate n.toNat tail,
    points := s.points + n }

/-- The `direction` property setter: update the pending direction unless the
request is the reverse of the committed direction, in which case fall through
(no field changes). -/
def Snake.setDirection (s : Snake) (d : Direction) : Snake :=
  if d = .UP ∧ s.direction ≠ .DOWN then { s with next_direction := d }
  else if d = .DOWN ∧ s.direction ≠ .UP then { s with next_direction := d }
  else if d = .RIGHT ∧ s.direction ≠ .LEFT then { s with next_direction := d }
  else if d = .LEFT ∧ s.direction ≠ .RIGHT then { s with next_direction := d }
  else s

/-- `Snake.contains`: membership in `_cells`, or in `_cells[1:]` when the head
is disregarded. -/
def Snake.contains (s : Snake) (c : Coord) (disregard_head : Bool) : Bool :=
  if disregard_head then decide (c ∈ s.cells.tail) else decide (c ∈ s.cells)

/-- `Snake.collides_with_boundary`: the source uses inclusive bounds on both
ends (`0 <= head.row <= height` and `0 <= head.col <= width`). -/
def Snake.collidesWithBoundary (s : Snake) (boundary : Dimension) : Bool :=
  !decide ((0 ≤ s.head.row ∧ s.head.row ≤ boundary.height) ∧
           (0 ≤ s.head.col ∧ s.head.col ≤ boundary.width))

/-- `Snake.collides_with_snake`: the source branches on object identity
(`self is snake`); the caller passes `isSelf` accordingly. -/
def Snake.collidesWithSnake (s : Snake) (other : Snake) (isSelf : Bool) : Bool :=
  if isSelf then decide (s.head ∈ s.cells.tail) else decide (s.head ∈ other.cells)

/-- `Snake.collides_with_food`: head equals the food coordinate. -/
def Snake.collidesWithFood (s : Snake) (f : Food) : Bool :=
  decide (s.head = f.coord)

/-- One unit step of the head in a direction (the four branches of
`Snake.move`). -/
def stepCoord (c : Coord) (d : Direction) : Coord :=
  match d with
  | .UP => ⟨c.col, c.row - 1⟩
  | .DOWN => ⟨c.col, c.row + 1⟩
  | .LEFT => ⟨c.col - 1, c.row⟩
  | .RIGHT => ⟨c.col + 1, c.row⟩

/-- `Snake.move`: commit the pending direction, prepend the stepped head,
drop the last cell (`_cells[:-1]`), add one point. -/
def Snake.move (s : Snake) : Snake :=
  { cells := stepCoord s.head s.next_direction :: s.cells.dropLast,
    direction := s.next_direction,
    next_direction := s.next_direction,
    points := s.points + 1 }

/-- The mutable state of `GameModel` (the view is an external collaborator and
is not modelled; `_next_food` is stored but never read by the engine). -/
structure GameState where
  dim : Dimension
  nsnakes : Int
  snake_len : Int
  food_interval : Int
  step_ts : Int
  step_dt : Int
  food_ts : Int
  food_dt : Int
  next_food : Int
  snakes : List Snake
  food : List Food
  state : State
deriving DecidableEq, Repr, Inhabited

/-- `GameModel.reset`: timers, snakes, food and state are rebuilt.  Python
raises `ZeroDivisionError` when `nsnakes + 1 = 0`, hence the `none` branch.
`//` is Python floor division (`Int.fdiv`). -/
def reset (g : GameState) : Option GameState :=
  if g.nsnakes + 1 = 0 then none
  else
    let snake_spacing := g.dim.width.fdiv (g.nsnakes + 1)
    let head_position := (g.dim.height + g.snake_len).fdiv 2
    some { g with
      step_ts := 0,
      step_dt := 100,
      food_ts := g.food_interval,
      food_dt := g.food_interval,
      next_food := g.food_interval,
      snakes := (List.range g.nsnakes.toNat).map (fun i =>
        snakeCreate ⟨snake_spacing * ((i : Int) + 1), head_position⟩ g.snake_len .UP),
      food := [],
      state := ⟨[], false⟩ }

/-- `GameModel.__init__`: store the configuration and call `reset`.  No
parameter validation is performed by the source. -/
def mkGameModel (dim : Dimension) (nsnakes snake_len food_interval : Int) :
    Option GameState :=
  reset { dim := dim, nsnakes := nsnakes, snake_len := snake_len,
          food_interval := food_interval, step_ts := 0, step_dt := 0,
          food_ts := 0, food_dt := 0, next_food := 0, snakes := [], food := [],
          state := ⟨[], false⟩ }

/-- Python list indexing `lst[idx]` on a list of length `n`: valid when
`-n ≤ idx < n`, with negative indices counting from the end; `none` models
the `IndexError` raised otherwise. -/
def pyIdx (n : Nat) (idx : Int) : Option Nat :=
  if 0 ≤ idx then (if idx < (n : Int) then some idx.toNat else none)
  else (if -idx ≤ (n : Int) then some (n - (-idx).toNat) else none)

/-- `GameModel._update_snake_inputs`: apply each `(idx, direction)` pair via
the direction setter of `self._snakes[idx]`; an out-of-range index raises
(`none`). -/
def updateSnakeInputs : List Snake → List (Int × Direction) → Option (List Snake)
  | snakes, [] => some snakes
  | snakes, (idx, d) :: rest =>
      match pyIdx snakes.length idx with
      | none => none
      | some i =>
          updateSnakeInputs (snakes.set i ((snakes.getD i default).setDirection d)) rest

/-- `GameModel._snake_at`: does any snake body contain the coordinate. -/
def snakeAt (snakes : List Snake) (c : Coord) : Bool :=
  snakes.any (fun s => s.contains c false)

/-- `GameModel._food_at`: does any live food item sit on the coordinate. -/
def foodAt (food : List Food) (c : Coord) : Bool :=
  food.any (fun f => decide (f.coord = c))

/-- The row-major list of grid cells visited by `_add_food`
(`for row in range(height): for col in range(width)`). -/
def addFoodCells (dim : Dimension) : List Coord :=
  (List.range dim.height.toNat).flatMap (fun row =>
    (List.range dim.width.toNat).map (fun col => ⟨(col : Int), (row : Int)⟩))

/-- The loop body of `GameModel._add_food`.  `i` is the per-cell counter
(incremented for every visited cell, eligible or not, before it is tested,
so the source's `i == 0` branch can never fire), `k` counts the
`random.randint(1, i)` calls answered by the oracle `rnd`, and `acc` is the
`food_coord` variable: `none` while it is still unassigned. -/
def addFoodLoop (snakes : List Snake) (food : List Food) (rnd : Nat → Nat) :
    List Coord → Nat → Nat → Option Coord → Option Coord
  | [], _, _, acc => acc
  | c :: rest, i, k, acc =>
      let i1 := i + 1
      if !snakeAt snakes c && !foodAt food c then
        if i1 = 0 then
          addFoodLoop snakes food rnd rest i1 k (some c)
        else if rnd k = 1 then
          addFoodLoop snakes food rnd rest i1 (k + 1) (some c)
        else
          addFoodLoop snakes food rnd rest i1 (k + 1) acc
      else addFoodLoop snakes food rnd rest i1 k acc

/-- `GameModel._add_food`: run the reservoir loop, then append
`Food(food_coord)`.  When `food_coord` was never assigned the source raises
`UnboundLocalError` (`none`). -/
def addFood (g : GameState) (rnd : Nat → Nat) : Option GameState :=
  match addFoodLoop g.snakes g.food rnd (addFoodCells g.dim) 0 0 none with
  | none => none
  | some c => some { g with food := g.food ++ [⟨c⟩] }

/-- The `for food in self._food` loop of `_detect_collisions` for one snake.
`self._food.remove(food)` removes the element at the iterator's current
position, so (as in Python) the element that shifts into that slot is
skipped; `j` is the iterator index and the fuel starts at the list length,
which bounds the number of iterations since `j` grows and the list never
does.  Returns the remaining food and the number of items eaten. -/
def foodLoop (head : Coord) : Nat → List Food → Nat → List Food × Nat
  | 0, foods, _ => (foods, 0)
  | fuel + 1, foods, j =>
      if j < foods.length then
        if head = (foods.getD j default).coord then
          let r := foodLoop head fuel (foods.eraseIdx j) (j + 1)
          (r.1, r.2 + 1)
        else foodLoop head fuel foods (j + 1)
      else (foods, 0)

/-- `snake.grow(5)` applied once per eaten food item (growing does not move
the head, so separating the grow calls from the food scan is observably
the same as the source's interleaving). -/
def growTimes (s : Snake) : Nat → Snake
  | 0 => s
  | n + 1 => (growTimes s n).grow 5

/-- The inner `for other in self._snakes` loop: append `i` once for every
snake (itself included, compared by object identity, hence `j = i`) that the
head collides with. -/
def detectSnakeChecks (snakes : List Snake) (i : Nat) : List Nat :=
  ((List.range snakes.length).filter (fun j =>
      (snakes.getD i default).collidesWithSnake (snakes.getD j default)
        (decide (j = i)))).map (fun _ => i)

/-- The mutable variables of `_detect_collisions`. -/
structure DetectState where
  snakes : List Snake
  food : List Food
  step_dt : Int
  collisions : List Nat
deriving DecidableEq, Repr, Inhabited

/-- `GameModel._detect_collisions`, one snake index per fuel step (the
snake list's length is preserved, so fuel = length suffices): a boundary
collision records the index and `continue`s; otherwise the snake-vs-snake
checks record hits, then the food scan removes eaten items, grows the
snake by 5 per item and lowers the step interval by 2 per item. -/
def detectAux (dim : Dimension) : Nat → DetectState → Nat → DetectState
  | 0, st, _ => st
  | fuel + 1, st, i =>
      if i < st.snakes.length then
        let snake := st.snakes.getD i default
        if snake.collidesWithBoundary dim then
          detectAux dim fuel { st with collisions := st.collisions ++ [i] } (i + 1)
        else
          let snakeHits := detectSnakeChecks st.snakes i
          let fl := foodLoop snake.head st.food.length st.food 0
          detectAux dim fuel
            { snakes := st.snakes.set i (growTimes snake fl.2),
              food := fl.1,
              step_dt := st.step_dt - 2 * (fl.2 : Int),
              collisions := st.collisions ++ snakeHits } (i + 1)
      else st

/-- `GameModel._update_game_state`: move every snake, maybe add food (which
can raise, `none`), detect collisions, and build the tick `State`. -/
def updateGameState (g : GameState) (add_food : Bool) (rnd : Nat → Nat) :
    Option (GameState × State) :=
  let g1 := { g with snakes := g.snakes.map Snake.move }
  match (if add_food then addFood g1 rnd else some g1) with
  | none => none
  | some g2 =>
      let st := detectAux g2.dim g2.snakes.length ⟨g2.snakes, g2.food, g2.step_dt, []⟩ 0
      let result : State := ⟨st.collisions, decide (0 < st.collisions.length)⟩
      some ({ g2 with snakes := st.snakes, food := st.food, step_dt := st.step_dt },
            result)

/-- `GameModel.step`: always apply the input batch; gate on
`ts - step_ts < step_dt`; then record `ts`, decide the food spawn
(`add_food` is true only when the food timer fired and fewer than 3 items
are live), and run `_update_game_state`, storing its result in `_state`. -/
def step (g : GameState) (ts : Int) (inputs : List (Int × Direction))
    (rnd : Nat → Nat) : Option (GameState × State) :=
  match updateSnakeInputs g.snakes inputs with
  | none => none
  | some snakes1 =>
      let g1 := { g with snakes := snakes1 }
      if ts - g1.step_ts < g1.step_dt then some (g1, g1.state)
      else
        let g2 := { g1 with step_ts := ts }
        let p : Bool × GameState :=
          if ts - g2.food_ts > g2.food_dt then
            (decide (g2.food.length < 3), { g2 with food_ts := ts })
          else (false, g2)
        match updateGameState p.2 p.1 rnd with
        | none => none
        | some (g3, st) => some ({ g3 with state := st }, st)

/-! Controller state machine (multiplexer.py).  The two controllers'
side-effecting hooks (`exit` restores key repeat, `enter` redraws/resets)
are recorded as events; the mode tags stand for the two controller
objects owned by `ControllerController`. -/

/-- The two controller modes owned by the mediator. -/
inductive Mode where
  | Menu
  | Game
deriving DecidableEq, Repr, Inhabited

/-- The `Action` hierarchy of multiplexer.py (`Action()` itself is the nil
action; `ActionGameOver` carries the tick state). -/
inductive MAction where
  | nil
  | newGame
  | exitGame
  | gameOver (st : State)
deriving DecidableEq, Repr, Inhabited

/-- A controller lifecycle hook invocation. -/
inductive HookEvent where
  | exitHook (m : Mode)
  | enterHook (m : Mode)
deriving DecidableEq, Repr, Inhabited

/-- `GameController.update`, given the tick state the engine returned:
`ActionGameOver(state)` when the game is over, else the nil action. -/
def gameUpdateAction (st : State) : MAction :=
  if st.is_game_over then .gameOver st else .nil

/-- The tail of `ControllerController._handle_action`: switch to `nxt`
unless it already is the current controller (`next is not self._current`),
firing exit then enter hooks, and return the nil action. -/
def switchTo (current nxt : Mode) : Mode × MAction × List HookEvent :=
  if nxt = current then (current, .nil, [])
  else (nxt, .nil, [.exitHook current, .enterHook nxt])

/-- `ControllerController._handle_action`: `NewGame` switches to Game,
`GameOver` switches to Menu, `ExitGame` propagates unchanged, anything else
is returned as-is with no transition. -/
def handleAction (current : Mode) (a : MAction) : Mode × MAction × List HookEvent :=
  match a with
  | .newGame => switchTo current .Game
  | .exitGame => (current, .exitGame, [])
  | .gameOver _ => switchTo current .Menu
  | .nil => (current, .nil, [])

/-- `ControllerController.update` while the Game controller is active:
`GameController.update` steps the engine with an empty input batch and the
resulting action goes through `_handle_action`. -/
def ccGameUpdate (g : GameState) (tick : Int) (rnd : Nat → Nat) :
    Option (Mode × MAction × List HookEvent × GameState) :=
  match step g tick [] rnd with
  | none => none
  | some (g1, st) =>
      let r := handleAction .Game (gameUpdateAction st)
      some (r.1, r.2.1, r.2.2, g1)

/-- `MenuModel` from engine.py: the option list (pairs of key and display
text) and the selected index (`_selected_idx`, 0 at construction). -/
structure MenuModel where
  options : List (String × String)
  selected_idx : Int
deriving DecidableEq, Repr, Inhabited

/-- `MenuModel.next`: advance the selection modulo the option count (Python
`%` on a positive modulus is `Int.emod`; the view redraw is external). -/
def MenuModel.next (m : MenuModel) : MenuModel :=
  { m with selected_idx := (m.selected_idx + 1) % (m.options.length : Int) }

/-- `MenuModel.prev`: step the selection back, wrapping to the last option
when `selected_idx - 1 < 0`. -/
def MenuModel.prev (m : MenuModel) : MenuModel :=
  { m with selected_idx :=
      if m.selected_idx - 1 < 0 then (m.options.length : Int) - 1
      else m.selected_idx - 1 }

/-! ### Support definitions for the claims -/

/-- Modelled from the spec's words for claim C1 only (refinement target, not
source code): boundary collision with exclusive upper bounds
(`0 <= coord < dimension`). -/
def boundarySpecExclusive (s : Snake) (d : Dimension) : Bool :=
  !decide ((0 ≤ s.head.row ∧ s.head.row < d.height) ∧
           (0 ≤ s.head.col ∧ s.head.col < d.width))

/-- The opposite of a direction (Up↔Down, Left↔Right). -/
def Direction.reverse : Direction → Direction
  | .UP => .DOWN
  | .DOWN => .UP
  | .LEFT => .RIGHT
  | .RIGHT => .LEFT

/-- The core of a snake: everything except the pending direction. -/
def CoreEq (a b : Snake) : Prop :=
  a.cells = b.cells ∧ a.points = b.points ∧ a.direction = b.direction

/-- Engine states reachable through the public lifecycle: session
construction, reset (a new game) and successful steps. -/
inductive Reachable : GameState → Prop
  | init (dim : Dimension) (nsnakes snake_len food_interval : Int) (g : GameState) :
      mkGameModel dim nsnakes snake_len food_interval = some g → Reachable g
  | reset (g g' : GameState) : Reachable g → Snyke.reset g = some g' → Reachable g'
  | step (g : GameState) (ts : Int) (inputs : List (Int × Direction))
      (rnd : Nat → Nat) (g' : GameState) (st : State) :
      Reachable g → Snyke.step g ts inputs rnd = some (g', st) → Reachable g'

/-- A session state whose 1×1 grid is fully occupied by a snake: zero
eligible food cells (used by claim C2). -/
def fullGrid : GameState :=
  { dim := ⟨1, 1⟩, nsnakes := 1, snake_len := 1, food_interval := 10,
    step_ts := 0, step_dt := 100, food_ts := 10, food_dt := 10, next_food := 10,
    snakes := [⟨[⟨0, 0⟩], .UP, .UP, 0⟩], food := [], state := ⟨[], false⟩ }

/-- A running session with a single snake, step interval 100, timers far in
the future (used by claims C3 and C5). -/
def oneSnakeGame : GameState :=
  { dim := ⟨10, 10⟩, nsnakes := 1, snake_len := 2, food_interval := 100,
    step_ts := 0, step_dt := 100, food_ts := 100, food_dt := 100, next_food := 100,
    snakes := [⟨[⟨5, 5⟩, ⟨5, 6⟩], .UP, .UP, 0⟩], food := [], state := ⟨[], false⟩ }

/-- A session whose single snake is one move away from leaving the grid
(used by claim C9). -/
def gameOverGame : GameState :=
  { dim := ⟨3, 3⟩, nsnakes := 1, snake_len := 2, food_interval := 100,
    step_ts := 0, step_dt := 1, food_ts := 100, food_dt := 100, next_food := 100,
    snakes := [⟨[⟨1, 0⟩, ⟨1, 1⟩], .UP, .UP, 0⟩], food := [], state := ⟨[], false⟩ }

/-- `gameOverGame` after the fatal step at timestamp 5. -/
def gameOverGameAfter : GameState :=
  { gameOverGame with
    step_ts := 5,
    snakes := [⟨[⟨1, -1⟩, ⟨1, 0⟩], .UP, .UP, 1⟩],
    state := ⟨[0], true⟩ }

/-! ### Claim C1: boundary collision policy -/

/-- Claim C1 as stated is false on the code: for a snake whose head row
equals the grid height (head (0,5), grid 5×5) the claim's exclusive-bound
policy reports a collision but `collides_with_boundary` returns false. -/
theorem c1_counterexample :
    Snake.collidesWithBoundary ⟨[⟨0, 5⟩], .UP, .UP, 0⟩ ⟨5, 5⟩ ≠
      boundarySpecExclusive ⟨[⟨0, 5⟩], .UP, .UP, 0⟩ ⟨5, 5⟩ := by decide

/-- Claim C1 (amended): `collides_with_boundary` is true iff the head lies
outside the fully inclusive range `[0, height] × [0, width]`; in particular a
head whose row equals the grid height (with the other coordinates in range)
is not a boundary collision. -/
theorem c1_boundary_inclusive (s : Snake) (d : Dimension) :
    (s.collidesWithBoundary d = true ↔
      ¬ ((0 ≤ s.head.row ∧ s.head.row ≤ d.height) ∧
         (0 ≤ s.head.col ∧ s.head.col ≤ d.width))) ∧
    (s.head.row = d.height → 0 ≤ d.height → 0 ≤ s.head.col → s.head.col ≤ d.width →
      s.collidesWithBoundary d = false) := by
  constructor
  · simp [Snake.collidesWithBoundary]
    omega
  · intro h1 h2 h3 h4
    simp [Snake.collidesWithBoundary]
    omega

/-- Witness for C1's amended theorem at head (2,5) on a 5×5 grid. -/
theorem c1_witness :
    Snake.collidesWithBoundary ⟨[⟨2, 5⟩], .UP, .UP, 0⟩ ⟨5, 5⟩ = false :=
  (c1_boundary_inclusive ⟨[⟨2, 5⟩], .UP, .UP, 0⟩ ⟨5, 5⟩).2
    (by decide) (by decide) (by decide) (by decide)

/-! ### Claim C4: 180-degree reversal requests are dropped -/

/-- Claim C4: requesting the exact reverse of the committed direction leaves
the snake (in particular its pending direction) unchanged, whatever the
pending direction currently is; consequently with committed = pending = Up a
Down request still moves the head up on the next move. -/
theorem c4_reverse_request_dropped (s : Snake) (d : Direction)
    (h : d = s.direction.reverse) :
    s.setDirection d = s ∧
    (s.direction = .UP → s.next_direction = .UP →
      (s.setDirection d).move.cells.headI = ⟨s.head.col, s.head.row - 1⟩) := by
  subst h
  have h1 : s.setDirection s.direction.reverse = s := by
    cases hd : s.direction <;>
      simp [Snake.setDirection, Direction.reverse, hd]
  refine ⟨h1, fun _ hp => ?_⟩
  rw [h1]
  simp [Snake.move, hp, stepCoord]

/-- Witness for C4: committed Up, pending Up, head (3,3); a Down request is
dropped and the next move puts the head at (3,2). -/
theorem c4_witness :
    ((⟨[⟨3, 3⟩, ⟨3, 4⟩], .UP, .UP, 0⟩ : Snake).setDirection .DOWN).move.cells.headI =
      ⟨3, 2⟩ :=
  (c4_reverse_request_dropped ⟨[⟨3, 3⟩, ⟨3, 4⟩], .UP, .UP, 0⟩ .DOWN (by decide)).2
    (by decide) (by decide)

/-! ### Claim C6: move semantics -/

/-- Claim C6: `move()` commits the pending direction, prepends a head one
step in that direction, drops the last segment (body length unchanged) and
adds exactly one point. -/
theorem c6_move (s : Snake) (h : s.cells ≠ []) :
    s.move.direction = s.next_direction ∧
    s.move.next_direction = s.next_direction ∧
    s.move.cells.headI = stepCoord s.head s.next_direction ∧
    s.move.cells.tail = s.cells.dropLast ∧
    s.move.cells.length = s.cells.length ∧
    s.move.points = s.points + 1 := by
  refine ⟨rfl, rfl, rfl, rfl, ?_, rfl⟩
  have hpos : 0 < s.cells.length := List.length_pos.mpr h
  simp [Snake.move]
  omega

/-- Witness for C6, scenario A of the spec: length-3 snake facing Up spawned
at (10,10); after one move the head is (10,9), score 1, length still 3. -/
theorem c6_witness :
    ((snakeCreate ⟨10, 10⟩ 3 .UP).move.cells.headI = ⟨10, 9⟩ ∧
     (snakeCreate ⟨10, 10⟩ 3 .UP).move.points = 1) ∧
    (snakeCreate ⟨10, 10⟩ 3 .UP).move.cells.length =
      (snakeCreate ⟨10, 10⟩ 3 .UP).cells.length :=
  ⟨by decide, (c6_move (snakeCreate ⟨10, 10⟩ 3 .UP) (by decide)).2.2.2.2.1⟩

/-! ### Claim C10: menu next/prev are mutually inverse -/

/-- Claim C10: with at least one option and an in-range selection, `next`
then `prev` (and `prev` then `next`) restore the menu state, including
across the wrap-around at both ends. -/
theorem c10_next_prev_inverse (m : MenuModel)
    (h1 : 0 < m.options.length) (h2 : 0 ≤ m.selected_idx)
    (h3 : m.selected_idx < (m.options.length : Int)) :
    m.next.prev = m ∧ m.prev.next = m := by
  obtain ⟨opts, idx⟩ := m
  simp only [MenuModel.next, MenuModel.prev] at *
  set n : Int := (opts.length : Int) with hn
  have hn1 : 1 ≤ n := by omega
  constructor
  · simp only [MenuModel.mk.injEq, and_true, true_and]
    rcases eq_or_lt_of_le (show idx + 1 ≤ n by omega) with he | hlt
    · have : (idx + 1) % n = 0 := by rw [he]; exact Int.emod_self
      rw [this]
      simp only [show (0 : Int) - 1 < 0 by omega, if_pos]
      omega
    · have : (idx + 1) % n = idx + 1 := Int.emod_eq_of_lt (by omega) hlt
      rw [this]
      rw [if_neg (by omega)]
      omega
  · simp only [MenuModel.mk.injEq, and_true, true_and]
    by_cases h0 : idx - 1 < 0
    · rw [if_pos h0]
      have : n - 1 + 1 = n := by omega
      rw [this, Int.emod_self]
      omega
    · rw [if_neg h0]
      have : idx - 1 + 1 = idx := by omega
      rw [this, Int.emod_eq_of_lt (by omega) h3]

/-- Witness for C10 on a two-option menu with the second option selected. -/
theorem c10_witness :
    (⟨[("a", "A"), ("b", "B")], 1⟩ : MenuModel).next.prev =
        ⟨[("a", "A"), ("b", "B")], 1⟩ ∧
      (⟨[("a", "A"), ("b", "B")], 1⟩ : MenuModel).prev.next =
        ⟨[("a", "A"), ("b", "B")], 1⟩ :=
  c10_next_prev_inverse ⟨[("a", "A"), ("b", "B")], 1⟩
    (by decide) (by decide) (by decide)

/-! ### Claim C7: configuration validation -/

/-- Claim C7 as stated is false on the code: a session with width 0,
height 0 and snake length 0 is constructed without any error, and `Snake`
creation with length 0 succeeds, returning an empty body. -/
theorem c7_counterexample :
    (mkGameModel ⟨0, 0⟩ 1 0 10).isSome = true ∧
    (snakeCreate ⟨0, 0⟩ 0 .UP).cells = [] := by decide

/-- Claim C7 (amended): construction performs no validation — any
configuration (with snake count ≠ −1, which alone dies on a division by
zero) is accepted, and `Snake` creation with non-positive length returns a
snake with an empty body instead of failing. -/
theorem c7_no_validation (dim : Dimension) (nsnakes snake_len food_interval : Int)
    (head : Coord) (len : Int) (dir : Direction)
    (h1 : nsnakes ≠ -1) (h2 : len ≤ 0) :
    (mkGameModel dim nsnakes snake_len food_interval).isSome = true ∧
    (snakeCreate head len dir).cells = [] := by
  constructor
  · have hne : ¬ (nsnakes + 1 = 0) := by omega
    simp [mkGameModel, reset, hne]
  · simp [snakeCreate, Int.toNat_of_nonpos h2]

/-- Witness for C7's amended theorem: negative dimensions, zero snakes,
negative length. -/
theorem c7_witness :
    (mkGameModel ⟨-3, -3⟩ 0 (-2) 10).isSome = true ∧
    (snakeCreate ⟨1, 1⟩ (-2) .UP).cells = [] :=
  c7_no_validation ⟨-3, -3⟩ 0 (-2) 10 ⟨1, 1⟩ (-2) .UP (by decide) (by decide)

/-! ### Claim C2: food placement safety -/

/-- Claim C2 is wrong about the code (code bug): on a board with zero
eligible cells `_add_food` still executes `Food(food_coord)` with
`food_coord` never assigned, raising `UnboundLocalError` instead of
skipping the spawn; and even with an eligible cell (grid 2×1, only (1,0)
free) the placement crashes whenever `random.randint(1, 2)` returns 2,
because the counter `i` is already 1 at the first cell and the source's
`i == 0` initialisation branch is dead. -/
theorem c2_add_food_crashes :
    addFood fullGrid (fun _ => 1) = none ∧
    addFood { fullGrid with dim := ⟨2, 1⟩ } (fun _ => 2) = none := by decide

/-! ### Claim C3: invalid input indices -/

/-- `pyIdx` fails exactly on the indices Python's `IndexError` covers. -/
theorem pyIdx_eq_none_iff (n : Nat) (idx : Int) :
    pyIdx n idx = none ↔ (n : Int) ≤ idx ∨ idx < -(n : Int) := by
  unfold pyIdx
  split_ifs with h1 h2 h3 <;> simp <;> omega

/-- Claim C3 as stated is false on the code: a batch entry with snake
index 1 in a one-snake game makes `step` raise `IndexError` (modelled
`none`) instead of being ignored. -/
theorem c3_counterexample :
    step oneSnakeGame 7 [((1 : Int), .UP)] (fun _ => 1) = none := by decide

/-- Claim C3 (amended): `_update_snake_inputs` (and hence `step`) raises an
index error exactly when the batch contains an entry whose index is ≥ the
snake count or < −count; entries in `[−count, 0)` are applied to the snake
they denote from the end, so they are not ignored either. -/
theorem c3_invalid_index_raises (snakes : List Snake)
    (inputs : List (Int × Direction)) :
    updateSnakeInputs snakes inputs = none ↔
      ∃ p ∈ inputs, ((snakes.length : Int) ≤ p.1 ∨ p.1 < -(snakes.length : Int)) := by
  induction inputs generalizing snakes with
  | nil => simp [updateSnakeInputs]
  | cons hd tl ih =>
      obtain ⟨idx, d⟩ := hd
      simp only [updateSnakeInputs]
      cases hp : pyIdx snakes.length idx with
      | none =>
          simp only [hp]
          constructor
          · intro _
            exact ⟨(idx, d), List.mem_cons_self _ _, (pyIdx_eq_none_iff _ _).mp hp⟩
          · intro _
            trivial
      | some i =>
          simp only [hp]
          rw [ih]
          have hvalid : ¬ ((snakes.length : Int) ≤ idx ∨ idx < -(snakes.length : Int)) := by
            intro hcon
            rw [← pyIdx_eq_none_iff] at hcon
            rw [hp] at hcon
            cases hcon
          simp only [List.length_set, List.mem_cons]
          constructor
          · rintro ⟨p, hmem, hP⟩
            exact ⟨p, Or.inr hmem, hP⟩
          · rintro ⟨p, hor, hP⟩
            rcases hor with heq | hmem
            · subst heq
              exact absurd hP hvalid
            · exact ⟨p, hmem, hP⟩

/-! ### Claim C5: the timing gate -/

/-- The direction setter never touches the body, score or committed
direction. -/
theorem setDirection_coreEq (s : Snake) (d : Direction) :
    CoreEq (s.setDirection d) s := by
  unfold Snake.setDirection CoreEq
  split_ifs <;> exact ⟨rfl, rfl, rfl⟩

theorem coreEq_refl (a : Snake) : CoreEq a a := ⟨rfl, rfl, rfl⟩

theorem coreEq_trans {a b c : Snake} (h1 : CoreEq a b) (h2 : CoreEq b c) :
    CoreEq a c :=
  ⟨h1.1.trans h2.1, h1.2.1.trans h2.2.1, h1.2.2.trans h2.2.2⟩

/-- Updating one snake's pending direction in place preserves every
snake's core at every position. -/
theorem coreEq_set_getD (l : List Snake) (i j : Nat) (d : Direction) :
    CoreEq ((l.set i ((l.getD i default).setDirection d)).getD j default)
      (l.getD j default) := by
  induction l generalizing i j with
  | nil => exact coreEq_refl _
  | cons a t ih =>
      cases i with
      | zero =>
          cases j with
          | zero => simpa [List.getD_cons_zero] using setDirection_coreEq a d
          | succ j =>
              simp only [List.set, List.getD_cons_succ]
              exact coreEq_refl _
      | succ i =>
          cases j with
          | zero =>
              simp only [List.set, List.getD_cons_zero]
              exact coreEq_refl _
          | succ j =>
              simp only [List.set, List.getD_cons_succ]
              exact ih i j

/-- `_update_snake_inputs` preserves the snake count and every snake's
body, score and committed direction; only pending directions change. -/
theorem updateSnakeInputs_core (inputs : List (Int × Direction)) :
    ∀ (snakes snakes1 : List Snake),
      updateSnakeInputs snakes inputs = some snakes1 →
      snakes1.length = snakes.length ∧
      ∀ j, CoreEq (snakes1.getD j default) (snakes.getD j default) := by
  induction inputs with
  | nil =>
      intro s s1 h
      simp only [updateSnakeInputs, Option.some.injEq] at h
      subst h
      exact ⟨rfl, fun j => coreEq_refl _⟩
  | cons hd tl ih =>
      intro s s1 h
      obtain ⟨idx, d⟩ := hd
      simp only [updateSnakeInputs] at h
      cases hp : pyIdx s.length idx with
      | none => simp [hp] at h
      | some i =>
          rw [hp] at h
          obtain ⟨hlen, hcore⟩ := ih _ _ h
          refine ⟨by rw [hlen, List.length_set], fun j => ?_⟩
          exact coreEq_trans (hcore j) (coreEq_set_getD s i j d)

/-- Claim C5: when `ts - step_ts < step_dt`, `step` returns the previous
tick's state and changes nothing except (possibly) pending directions: the
resulting engine state is the old one with only the snake list replaced by
the input-updated list, whose length and per-snake body, score and
committed direction are unchanged. -/
theorem c5_timing_gate (g : GameState) (ts : Int) (inputs : List (Int × Direction))
    (rnd : Nat → Nat) (snakes1 : List Snake)
    (hin : updateSnakeInputs g.snakes inputs = some snakes1)
    (hgate : ts - g.step_ts < g.step_dt) :
    step g ts inputs rnd = some ({ g with snakes := snakes1 }, g.state) ∧
    snakes1.length = g.snakes.length ∧
    ∀ j, (snakes1.getD j default).cells = (g.snakes.getD j default).cells ∧
      (snakes1.getD j default).points = (g.snakes.getD j default).points ∧
      (snakes1.getD j default).direction = (g.snakes.getD j default).direction := by
  obtain ⟨hlen, hcore⟩ := updateSnakeInputs_core inputs g.snakes snakes1 hin
  refine ⟨?_, hlen, fun j => hcore j⟩
  simp only [step, hin]
  rw [if_pos hgate]

/-- Witness for C5: a gated call (ts 5, interval 100) with a Left input; the
pending direction turns Left, everything else is untouched. -/
theorem c5_witness :
    step oneSnakeGame 5 [((0 : Int), .LEFT)] (fun _ => 1) =
      some ({ oneSnakeGame with snakes := [⟨[⟨5, 5⟩, ⟨5, 6⟩], .UP, .LEFT, 0⟩] },
        oneSnakeGame.state) :=
  (c5_timing_gate oneSnakeGame 5 [((0 : Int), .LEFT)] (fun _ => 1)
    [⟨[⟨5, 5⟩, ⟨5, 6⟩], .UP, .LEFT, 0⟩] (by decide) (by decide)).1

/-! ### Claim C9: game-over transitions back to the menu -/

/-- Claim C9: when the active Game mode's update obtains a tick state with
`is_game_over` true, the mediator switches to Menu, firing Game's exit hook
then Menu's entry hook, and hands the nil action (not `GameOver`) back to
the caller. -/
theorem c9_gameover_switches_to_menu (g : GameState) (tick : Int) (rnd : Nat → Nat)
    (g1 : GameState) (st : State)
    (hstep : step g tick [] rnd = some (g1, st))
    (hover : st.is_game_over = true) :
    ccGameUpdate g tick rnd =
      some (.Menu, .nil, [.exitHook .Game, .enterHook .Menu], g1) := by
  simp only [ccGameUpdate, hstep]
  simp [gameUpdateAction, hover, handleAction, switchTo]

/-- Witness for C9: `gameOverGame`'s snake walks off the top edge at
timestamp 5 and the mediator lands back in Menu with the nil action. -/
theorem c9_witness :
    ccGameUpdate gameOverGame 5 (fun _ => 1) =
      some (.Menu, .nil, [.exitHook .Game, .enterHook .Menu], gameOverGameAfter) :=
  c9_gameover_switches_to_menu gameOverGame 5 (fun _ => 1) gameOverGameAfter
    ⟨[0], true⟩ (by decide) (by decide)

/-! ### Claim C8: at most three food items -/

/-- `reset` empties the food collection. -/
theorem reset_food_nil (g g' : GameState) (h : reset g = some g') : g'.food = [] := by
  unfold reset at h
  split_ifs at h with h1
  simp only [Option.some.injEq] at h
  rw [← h]

/-- The food-consumption scan only ever removes items. -/
theorem foodLoop_length_le (head : Coord) (fuel : Nat) :
    ∀ (foods : List Food) (j : Nat),
      (foodLoop head fuel foods j).1.length ≤ foods.length := by
  induction fuel with
  | zero => intro foods j; exact le_refl _
  | succ fuel ih =>
      intro foods j
      simp only [foodLoop]
      split_ifs with h1 h2
      · exact le_trans (ih _ _) (List.length_eraseIdx_le _ _)
      · exact ih _ _
      · exact le_refl _

/-- Collision detection never adds food. -/
theorem detectAux_food_le (dim : Dimension) (fuel : Nat) :
    ∀ (st : DetectState) (i : Nat),
      (detectAux dim fuel st i).food.length ≤ st.food.length := by
  induction fuel with
  | zero => intro st i; exact le_refl _
  | succ fuel ih =>
      intro st i
      simp only [detectAux]
      split_ifs with h1 h2
      · exact ih _ _
      · exact le_trans (ih _ _) (foodLoop_length_le _ _ _ _)
      · exact le_refl _

/-- A successful `_add_food` appends exactly one item. -/
theorem addFood_food_length (g : GameState) (rnd : Nat → Nat) (g' : GameState)
    (h : addFood g rnd = some g') : g'.food.length = g.food.length + 1 := by
  unfold addFood at h
  cases hc : addFoodLoop g.snakes g.food rnd (addFoodCells g.dim) 0 0 none with
  | none => rw [hc] at h; exact Option.noConfusion h
  | some c =>
      rw [hc] at h
      simp only [Option.some.injEq] at h
      rw [← h]
      simp

/-- One `_update_game_state` keeps the food count at most 3, provided food
was only allowed to spawn below the cap. -/
theorem updateGameState_food_le (g : GameState) (b : Bool) (rnd : Nat → Nat)
    (g' : GameState) (st : State)
    (h : updateGameState g b rnd = some (g', st))
    (h3 : g.food.length ≤ 3) (hb : b = true → g.food.length < 3) :
    g'.food.length ≤ 3 := by
  simp only [updateGameState] at h
  cases b with
  | false =>
      simp only [Bool.false_eq_true, if_false] at h
      simp only [Option.some.injEq, Prod.mk.injEq] at h
      rw [← h.1]
      exact le_trans (detectAux_food_le _ _ _ _) h3
  | true =>
      simp only [if_true] at h
      cases haf : addFood { g with snakes := g.snakes.map Snake.move } rnd with
      | none => rw [haf] at h; exact Option.noConfusion h
      | some g2 =>
          rw [haf] at h
          simp only [Option.some.injEq, Prod.mk.injEq] at h
          rw [← h.1]
          refine le_trans (detectAux_food_le _ _ _ _) ?_
          have hlen := addFood_food_length _ _ _ haf
          have hlt : g.food.length < 3 := hb rfl
          calc g2.food.length = g.food.length + 1 := hlen
            _ ≤ 3 := by omega

/-- A successful `step` keeps the food count at most 3. -/
theorem step_food_le (g : GameState) (ts : Int) (inputs : List (Int × Direction))
    (rnd : Nat → Nat) (g' : GameState) (st : State)
    (h : step g ts inputs rnd = some (g', st)) (h3 : g.food.length ≤ 3) :
    g'.food.length ≤ 3 := by
  simp only [step] at h
  split at h
  · exact Option.noConfusion h
  next snakes1 hu =>
    split at h
    · simp only [Option.some.injEq, Prod.mk.injEq] at h
      rw [← h.1]
      exact h3
    · split at h
      next hug => exact Option.noConfusion h
      next g3 st3 hug =>
        simp only [Option.some.injEq, Prod.mk.injEq] at h
        rw [← h.1]
        show g3.food.length ≤ 3
        split at hug
        · refine updateGameState_food_le _ _ _ _ _ hug h3 ?_
          intro hdec
          exact of_decide_eq_true hdec
        · exact updateGameState_food_le _ _ _ _ _ hug h3 (by simp)

/-- Claim C8: in every reachable engine state at most 3 food items are
live — reset starts from an empty collection and each successful step
appends at most one item, only below the cap. -/
theorem c8_food_at_most_three (g : GameState) (h : Reachable g) :
    g.food.length ≤ 3 := by
  induction h with
  | init dim nsnakes snake_len food_interval g hg =>
      unfold mkGameModel at hg
      rw [reset_food_nil _ _ hg]
      decide
  | reset g g' hr hrs ih =>
      rw [reset_food_nil _ _ hrs]
      decide
  | step g ts inputs rnd g' st hr hst ih =>
      exact step_food_le _ _ _ _ _ _ hst ih

/-- Witness for C8 at a freshly constructed 4×4 single-snake session. -/
theorem c8_witness :
    ((mkGameModel ⟨4, 4⟩ 1 2 10).getD default).food.length ≤ 3 :=
  c8_food_at_most_three _ (Reachable.init ⟨4, 4⟩ 1 2 10 _ (by rfl))

end Snyke
